import Mathlib

/-!
Shallow embedding of the ad-record normalization engine of `app.py`
(the functions `is_date_in_range`, `_get_snapshot_dict`,
`get_original_image_url` and `extract_selected_fields`), together with
theorems that settle the specification claims about them.

Python values flowing through these functions are JSON-like; we model
them by the inductive type `Value` (dictionaries as association lists,
in insertion order, first binding wins on lookup).  Python's standard
library functions (`json.loads`, `str`, the date parsers of
`datetime`) are not repository code: `json.loads` and the two date
parsers enter as explicit function parameters, and `str` is modelled
for JSON-like values.
-/

/-- A JSON-like Python value, as handled by the extraction code. -/
inductive Value where
  | null : Value
  | bool : Bool → Value
  | int : Int → Value
  | str : String → Value
  | list : List Value → Value
  | dict : List (String × Value) → Value
deriving Repr

/-- A Python dictionary with string keys: an association list, first
binding wins. -/
abbrev Obj := List (String × Value)

/-- `item.get(k)`: the value bound to `k`, `None` when absent. -/
def Obj.get (o : Obj) (k : String) : Value :=
  match o with
  | [] => Value.null
  | (k0, v) :: rest => if k0 = k then v else Obj.get rest k

/-- `item[k] = v`: replace the first binding of `k`, or append one. -/
def Obj.set (o : Obj) (k : String) (v : Value) : Obj :=
  match o with
  | [] => [(k, v)]
  | (k0, v0) :: rest =>
      if k0 = k then (k, v) :: rest else (k0, v0) :: Obj.set rest k v

/-- Python truthiness on JSON-like values. -/
def pyTruthy : Value → Bool
  | Value.null => false
  | Value.bool b => b
  | Value.int n => n ≠ 0
  | Value.str s => s ≠ ""
  | Value.list xs => !xs.isEmpty
  | Value.dict es => !es.isEmpty

/-- Python `a or b`: `a` when truthy, else `b`. -/
def pyOr (a b : Value) : Value := if pyTruthy a then a else b

mutual

/-- Python `str(c)` on JSON-like values (scalar cases are exact; the
container cases follow `repr` for simple quote-free content). -/
def pyStr : Value → String
  | Value.null => "None"
  | Value.bool b => if b then "True" else "False"
  | Value.int n => toString n
  | Value.str s => s
  | Value.list xs => "[" ++ String.intercalate ", " (pyStrInner xs) ++ "]"
  | Value.dict _ => "\x7b...\x7d"

/-- The elements of a list rendered as by Python `repr` (strings get
quotes). -/
def pyStrInner : List Value → List String
  | [] => []
  | Value.str s :: xs => ("'" ++ s ++ "'") :: pyStrInner xs
  | x :: xs => pyStr x :: pyStrInner xs

end

/-- `_get_snapshot_dict(item)` from `app.py`.  `jsonLoads` stands for
Python's `json.loads` restricted to JSON-like results (`none` models a
raised parse error). -/
def getSnapshotDict (jsonLoads : String → Option Value) (item : Obj) : Obj :=
  let snap := Obj.get item "snapshot"
  let snap :=
    match snap with
    | Value.str s =>
        match jsonLoads s with
        | some v => v
        | none => Value.dict []
    | v => v
  match snap with
  | Value.dict entries => entries
  | _ => []

/-- The list/singleton/absent coercion applied to `snapshot.images`
and `snapshot.videos`: a lone mapping becomes a one-element list, any
non-list non-mapping becomes the empty list. -/
def coerceSeq : Value → List Value
  | Value.dict es => [Value.dict es]
  | Value.list xs => xs
  | _ => []

/-- The inner key loop of the media scans: the first truthy value
among `keys` looked up in `d`, in order. -/
def firstTruthyKey (d : Obj) (keys : List String) : Option Value :=
  match keys with
  | [] => none
  | k :: ks =>
      let v := Obj.get d k
      if pyTruthy v then some v else firstTruthyKey d ks

/-- The element loop of the media scans: visit elements in order,
skip non-mappings, return the first truthy hit (whole scan
short-circuits). -/
def scanMedia (keys : List String) : List Value → Value
  | [] => Value.null
  | e :: rest =>
      match e with
      | Value.dict d =>
          match firstTruthyKey d keys with
          | some v => v
          | none => scanMedia keys rest
      | _ => scanMedia keys rest

/-- `get_original_image_url(item)` from `app.py`. -/
def getOriginalImageUrl (jsonLoads : String → Option Value) (item : Obj) : Value :=
  let snap := getSnapshotDict jsonLoads item
  scanMedia ["original_image_url", "original_picture_url", "original_picture", "url", "src"]
    (coerceSeq (Obj.get snap "images"))

/-- The `card0` / `pgcat0` computation of `extract_selected_fields`:
a list uses element 0 when that element is a mapping, a lone mapping
is used directly, anything else yields no card. -/
def firstDict : Value → Option Obj
  | Value.list xs =>
      match xs with
      | [] => none
      | x :: _ =>
          match x with
          | Value.dict es => some es
          | _ => none
  | Value.dict es => some es
  | _ => none

/-- `card0.get(k) if isinstance(card0, dict) else None`. -/
def optGet (o : Option Obj) (k : String) : Value :=
  match o with
  | some es => Obj.get es k
  | none => Value.null

/-- The fallback loop for the image URL over top-level keys of `item`:
first truthy hit wins, otherwise the incoming value is kept. -/
def imageFallback (item : Obj) (keep : Value) : Value :=
  match firstTruthyKey item ["imageUrl", "image_url", "thumbnailUrl", "thumbnail_url", "image"] with
  | some v => v
  | none => keep

/-- The interleaved fallback loop for the video URL: for each key,
`item` is checked first, then `snap`; the first truthy value wins. -/
def videoFallback (item snap : Obj) : List String → Value
  | [] => Value.null
  | k :: ks =>
      if pyTruthy (Obj.get item k) then Obj.get item k
      else if pyTruthy (Obj.get snap k) then Obj.get snap k
      else videoFallback item snap ks

/-- `extract_selected_fields(item)` from `app.py`. -/
def extract_selected_fields (jsonLoads : String → Option Value) (item : Obj) : Obj :=
  let snap := getSnapshotDict jsonLoads item
  let card0 := firstDict (Obj.get snap "cards")
  let pgcat0 := firstDict (Obj.get snap "page_categories")
  let link0 := Obj.get snap "link_url"
  let link_url :=
    if !pyTruthy link0 then
      match card0 with
      | some c => Obj.get c "link_url"
      | none => link0
    else link0
  let display_url := Obj.get snap "caption"
  let website_url := pyOr (pyOr (Obj.get snap "link_url") (Obj.get snap "website")) (Obj.get snap "url")
  let categories := Obj.get item "categories"
  let categories_disp :=
    match categories with
    | Value.list xs => Value.str (String.intercalate ", " (xs.map pyStr))
    | v => v
  let image0 := getOriginalImageUrl jsonLoads item
  let image_url := if !pyTruthy image0 then imageFallback item image0 else image0
  let vscan := scanMedia ["video_hd_url", "video_sd_url", "video_preview_url", "url", "src"]
    (coerceSeq (Obj.get snap "videos"))
  let video_url :=
    if !pyTruthy vscan then
      videoFallback item snap ["videoUrl", "video_url", "video", "video_hd_url", "video_sd_url"]
    else vscan
  [ ("ad_archive_id", pyOr (Obj.get item "ad_archive_id") (Obj.get item "adId")),
    ("categories", categories_disp),
    ("collation_count", Obj.get item "collation_count"),
    ("collation_id", Obj.get item "collation_id"),
    ("start_date", pyOr (Obj.get item "start_date") (Obj.get item "startDate")),
    ("end_date", pyOr (Obj.get item "end_date") (Obj.get item "endDate")),
    ("entity_type", Obj.get item "entity_type"),
    ("is_active", Obj.get item "is_active"),
    ("page_id", pyOr (Obj.get item "page_id") (Obj.get item "pageId")),
    ("page_name", pyOr (Obj.get item "page_name") (Obj.get item "pageName")),
    ("cta_text", pyOr (optGet card0 "cta_text") (Obj.get snap "cta_text")),
    ("cta_type", pyOr (optGet card0 "cta_type") (Obj.get snap "cta_type")),
    ("link_url", link_url),
    ("display_url", display_url),
    ("website_url", website_url),
    ("page_entity_type", pyOr (optGet pgcat0 "page_entity_type") (Obj.get item "page_entity_type")),
    ("page_profile_picture_url", pyOr (Obj.get item "page_profile_picture_url") (Obj.get snap "page_profile_picture_url")),
    ("page_profile_uri", pyOr (Obj.get item "page_profile_uri") (Obj.get snap "page_profile_uri")),
    ("state_media_run_label", Obj.get item "state_media_run_label"),
    ("total_active_time", Obj.get item "total_active_time"),
    ("original_image_url", image_url),
    ("video_url", video_url) ]

/-- A calendar date as compared by Python's `datetime.date`:
lexicographic on (year, month, day). -/
structure PyDate where
  y : Nat
  m : Nat
  d : Nat
deriving Repr, DecidableEq

/-- Python `date` comparison (lexicographic). -/
def PyDate.leb (a b : PyDate) : Bool :=
  if a.y ≠ b.y then a.y < b.y
  else if a.m ≠ b.m then a.m < b.m
  else a.d ≤ b.d

/-- Python `c in s` on strings, for a single-character needle. -/
def strContainsChar (s : String) (c : Char) : Bool := s.data.contains c

/-- Character-level worker for `pyReplaceZ`: every `Z` becomes
`+00:00`. -/
def replaceZchars : List Char → List Char
  | [] => []
  | c :: rest =>
      if c = 'Z' then '+' :: '0' :: '0' :: ':' :: '0' :: '0' :: replaceZchars rest
      else c :: replaceZchars rest

/-- Python `s.replace("Z", "+00:00")`. -/
def pyReplaceZ (s : String) : String := String.mk (replaceZchars s.data)

/-- `is_date_in_range(date_str, start_date, end_date)` from `app.py`.
`fromiso` models `datetime.fromisoformat(·).date()` and `strp` models
`datetime.strptime(·, "%Y-%m-%d").date()`; `none` models a raised
parse error.  `none` as `date_str` models Python `None`. -/
def is_date_in_range (fromiso strp : String → Option PyDate)
    (date_str : Option String) (start_date end_date : PyDate) : Bool :=
  match date_str with
  | none => true
  | some s =>
      if s = "" then true
      else
        let parsed := if strContainsChar s 'T' then fromiso (pyReplaceZ s) else strp s
        match parsed with
        | none => true
        | some d => PyDate.leb start_date d && PyDate.leb d end_date

/-- The fixed key set of the canonical ad record, in output order. -/
def canonicalKeys : List String :=
  ["ad_archive_id", "categories", "collation_count", "collation_id",
   "start_date", "end_date", "entity_type", "is_active", "page_id",
   "page_name", "cta_text", "cta_type", "link_url", "display_url",
   "website_url", "page_entity_type", "page_profile_picture_url",
   "page_profile_uri", "state_media_run_label", "total_active_time",
   "original_image_url", "video_url"]

/-- Spec-side: "check `item` directly for keys ... in that order;
return first truthy hit", otherwise null. -/
def specFirstTruthy (o : Obj) : List String → Value
  | [] => Value.null
  | k :: ks => if pyTruthy (Obj.get o k) then Obj.get o k else specFirstTruthy o ks

/-- Spec-side image resolver, written from the specification's words:
(1) structural search over `snapshot.images`; (2) fallback over
top-level keys of `item`; (3) null. -/
def specImageResolver (jsonLoads : String → Option Value) (item : Obj) : Value :=
  let snap := getSnapshotDict jsonLoads item
  let step1 := scanMedia
    ["original_image_url", "original_picture_url", "original_picture", "url", "src"]
    (coerceSeq (Obj.get snap "images"))
  if pyTruthy step1 then step1
  else specFirstTruthy item ["imageUrl", "image_url", "thumbnailUrl", "thumbnail_url", "image"]

/-- Spec-side: "for each key check `item` first, then `snapshot`,
taking the first truthy value encountered across this whole
interleaved scan". -/
def specInterleaved (item snap : Obj) : List String → Value
  | [] => Value.null
  | k :: ks =>
      if pyTruthy (Obj.get item k) then Obj.get item k
      else if pyTruthy (Obj.get snap k) then Obj.get snap k
      else specInterleaved item snap ks

/-- Spec-side video resolver, written from the specification's words:
(1) structural search over `snapshot.videos`; (2) interleaved
item-then-snapshot fallback; (3) null. -/
def specVideoResolver (jsonLoads : String → Option Value) (item : Obj) : Value :=
  let snap := getSnapshotDict jsonLoads item
  let step1 := scanMedia
    ["video_hd_url", "video_sd_url", "video_preview_url", "url", "src"]
    (coerceSeq (Obj.get snap "videos"))
  if pyTruthy step1 then step1
  else specInterleaved item snap ["videoUrl", "video_url", "video", "video_hd_url", "video_sd_url"]

/-- Two records agree entry-by-entry, except that values bound to the
key `k0` may differ. -/
def agreeExcept (k0 : String) : Obj → Obj → Prop
  | [], [] => True
  | (k1, v1) :: r1, (k2, v2) :: r2 => k1 = k2 ∧ (k1 = k0 ∨ v1 = v2) ∧ agreeExcept k0 r1 r2
  | _, _ => False

/-- The ordered fallback behaviour the specification assigns to a
record field: the snake_case key's value when truthy, else the
camelCase key's value. -/
def fallsBackTo (r : Obj) (out : String) (item : Obj) (k1 k2 : String) : Prop :=
  (pyTruthy (Obj.get item k1) = true → Obj.get r out = Obj.get item k1) ∧
  (pyTruthy (Obj.get item k1) = false → Obj.get r out = Obj.get item k2)

/-- Split a character list on the dash character. -/
def splitDash : List Char → List (List Char)
  | [] => [[]]
  | c :: rest =>
      if c = '-' then [] :: splitDash rest
      else
        match splitDash rest with
        | g :: gs => (c :: g) :: gs
        | [] => [[c]]

/-- A nonempty all-digit character group read as a number. -/
def digitsToNat? (cs : List Char) : Option Nat :=
  match cs with
  | [] => none
  | _ =>
      if cs.all Char.isDigit then
        some (cs.foldl (fun acc c => acc * 10 + (c.toNat - 48)) 0)
      else none

/-- A concrete model of `datetime.strptime(s, "%Y-%m-%d").date()` for
the common case: exactly three dash-separated all-digit groups, the
year four digits, month and day in calendar range. -/
def strptimeYMD (s : String) : Option PyDate :=
  match splitDash s.data with
  | [ys, ms, ds] =>
      match digitsToNat? ys, digitsToNat? ms, digitsToNat? ds with
      | some y, some m, some d =>
          if ys.length = 4 ∧ 1 ≤ m ∧ m ≤ 12 ∧ 1 ≤ d ∧ d ≤ 31 then
            some ⟨y, m, d⟩
          else none
      | _, _, _ => none
  | _ => none

/-! ## Helper lemmas -/

theorem Obj.get_set_self (o : Obj) (k : String) (v : Value) :
    Obj.get (Obj.set o k v) k = v := by
  induction o with
  | nil => simp [Obj.set, Obj.get]
  | cons p rest ih =>
      obtain ⟨k0, v0⟩ := p
      by_cases h : k0 = k
      · simp [Obj.set, Obj.get, h]
      · simp [Obj.set, Obj.get, h, ih]

theorem Obj.get_set_ne (o : Obj) (k j : String) (v : Value) (h : j ≠ k) :
    Obj.get (Obj.set o k v) j = Obj.get o j := by
  have hkj : k ≠ j := fun hh => h hh.symm
  induction o with
  | nil => simp [Obj.set, Obj.get, hkj]
  | cons p rest ih =>
      obtain ⟨k0, v0⟩ := p
      by_cases h0 : k0 = k
      · subst h0
        simp [Obj.set, Obj.get, hkj]
      · simp [Obj.set, Obj.get, h0, ih]

theorem getSnapshotDict_set_dict (jl : String → Option Value) (item : Obj) (es : Obj) :
    getSnapshotDict jl (Obj.set item "snapshot" (Value.dict es)) = es := by
  simp [getSnapshotDict, Obj.get_set_self]

theorem firstTruthyKey_truthy (d : Obj) (keys : List String) (v : Value)
    (h : firstTruthyKey d keys = some v) : pyTruthy v = true := by
  induction keys with
  | nil => simp [firstTruthyKey] at h
  | cons k ks ih =>
      by_cases hk : pyTruthy (Obj.get d k)
      · simp [firstTruthyKey, hk] at h
        subst h; exact hk
      · simp [firstTruthyKey, hk] at h
        exact ih h

theorem scanMedia_null_or_truthy (keys : List String) (es : List Value) :
    scanMedia keys es = Value.null ∨ pyTruthy (scanMedia keys es) = true := by
  induction es with
  | nil => left; rfl
  | cons e rest ih =>
      cases e with
      | dict d =>
          cases h : firstTruthyKey d keys with
          | none => simpa [scanMedia, h] using ih
          | some v =>
              right
              simpa [scanMedia, h] using firstTruthyKey_truthy d keys v h
      | null => simpa [scanMedia] using ih
      | bool b => simpa [scanMedia] using ih
      | int n => simpa [scanMedia] using ih
      | str s => simpa [scanMedia] using ih
      | list xs => simpa [scanMedia] using ih

theorem specFirstTruthy_eq (o : Obj) (ks : List String) :
    specFirstTruthy o ks =
      (match firstTruthyKey o ks with
       | some v => v
       | none => Value.null) := by
  induction ks with
  | nil => rfl
  | cons k ks ih =>
      by_cases hk : pyTruthy (Obj.get o k)
      · simp [specFirstTruthy, firstTruthyKey, hk]
      · simp [specFirstTruthy, firstTruthyKey, hk, ih]

theorem videoFallback_eq_specInterleaved (item snap : Obj) (ks : List String) :
    videoFallback item snap ks = specInterleaved item snap ks := by
  induction ks with
  | nil => rfl
  | cons k ks ih => simp [videoFallback, specInterleaved, ih]

theorem Obj.get_agreeExcept (k0 : String) (l1 l2 : Obj) (hagree : agreeExcept k0 l1 l2)
    (k : String) (hk : k ≠ k0) : Obj.get l1 k = Obj.get l2 k := by
  induction l1 generalizing l2 with
  | nil =>
      cases l2 with
      | nil => rfl
      | cons p r => exact absurd hagree (by simp [agreeExcept])
  | cons p r1 ih =>
      obtain ⟨k1, v1⟩ := p
      cases l2 with
      | nil => exact absurd hagree (by simp [agreeExcept])
      | cons q r2 =>
          obtain ⟨k2, v2⟩ := q
          obtain ⟨hkk, hv, hrest⟩ := hagree
          subst hkk
          by_cases h1 : k1 = k
          · subst h1
            rcases hv with hv | hv
            · exact absurd hv hk
            · simp [Obj.get, hv]
          · simp [Obj.get, h1, ih r2 hrest]


theorem firstTruthyKey_set (o : Obj) (k : String) (v : Value) (keys : List String)
    (h : k ∉ keys) : firstTruthyKey (Obj.set o k v) keys = firstTruthyKey o keys := by
  induction keys with
  | nil => rfl
  | cons k0 ks ih =>
      simp only [List.mem_cons, not_or] at h
      obtain ⟨h1, h2⟩ := h
      simp [firstTruthyKey, Obj.get_set_ne _ _ _ _ (fun hh => h1 hh.symm), ih h2]

theorem imageFallback_set (o : Obj) (k : String) (v : Value) (keep : Value)
    (h : k ∉ ["imageUrl", "image_url", "thumbnailUrl", "thumbnail_url", "image"]) :
    imageFallback (Obj.set o k v) keep = imageFallback o keep := by
  simp [imageFallback, firstTruthyKey_set _ _ _ _ h]

theorem videoFallback_set_item (o : Obj) (k : String) (v : Value) (snap : Obj)
    (ks : List String) (h : k ∉ ks) :
    videoFallback (Obj.set o k v) snap ks = videoFallback o snap ks := by
  induction ks with
  | nil => rfl
  | cons k0 ks ih =>
      simp only [List.mem_cons, not_or] at h
      obtain ⟨h1, h2⟩ := h
      simp [videoFallback, Obj.get_set_ne _ _ _ _ (fun hh => h1 hh.symm), ih h2]

theorem videoFallback_set_snap (item : Obj) (o : Obj) (k : String) (v : Value)
    (ks : List String) (h : k ∉ ks) :
    videoFallback item (Obj.set o k v) ks = videoFallback item o ks := by
  induction ks with
  | nil => rfl
  | cons k0 ks ih =>
      simp only [List.mem_cons, not_or] at h
      obtain ⟨h1, h2⟩ := h
      simp [videoFallback, Obj.get_set_ne _ _ _ _ (fun hh => h1 hh.symm), ih h2]

/-! ## Claim theorems -/

/-- C5: `_get_snapshot_dict` returns `item["snapshot"]` itself when it
is a mapping; a string value is JSON-parsed, with parse failure or a
non-mapping parse result giving an empty mapping; an absent key or a
value of any other type gives an empty mapping; it never raises. -/
theorem claim_C5 :
    (∀ (jl : String → Option Value) (item : Obj) (e : Obj),
       Obj.get item "snapshot" = Value.dict e → getSnapshotDict jl item = e)
    ∧ (∀ (jl : String → Option Value) (item : Obj) (s : String) (e : Obj),
       Obj.get item "snapshot" = Value.str s → jl s = some (Value.dict e) →
       getSnapshotDict jl item = e)
    ∧ (∀ (jl : String → Option Value) (item : Obj) (s : String),
       Obj.get item "snapshot" = Value.str s → jl s = none →
       getSnapshotDict jl item = [])
    ∧ (∀ (jl : String → Option Value) (item : Obj) (s : String) (v : Value),
       Obj.get item "snapshot" = Value.str s → jl s = some v →
       (∀ e : Obj, v ≠ Value.dict e) → getSnapshotDict jl item = [])
    ∧ (∀ (jl : String → Option Value) (item : Obj),
       (∀ e : Obj, Obj.get item "snapshot" ≠ Value.dict e) →
       (∀ s : String, Obj.get item "snapshot" ≠ Value.str s) →
       getSnapshotDict jl item = []) := by
  refine ⟨?_, ?_, ?_, ?_, ?_⟩
  · intro jl item e h
    simp [getSnapshotDict, h]
  · intro jl item s e h hjl
    simp [getSnapshotDict, h, hjl]
  · intro jl item s h hjl
    simp [getSnapshotDict, h, hjl]
  · intro jl item s v h hjl hnd
    cases v with
    | dict e => exact absurd rfl (hnd e)
    | null => simp [getSnapshotDict, h, hjl]
    | bool b => simp [getSnapshotDict, h, hjl]
    | int n => simp [getSnapshotDict, h, hjl]
    | str s2 => simp [getSnapshotDict, h, hjl]
    | list xs => simp [getSnapshotDict, h, hjl]
  · intro jl item hdict hstr
    cases hv : Obj.get item "snapshot" with
    | dict e => exact absurd hv (hdict e)
    | str s => exact absurd hv (hstr s)
    | null => simp [getSnapshotDict, hv]
    | bool b => simp [getSnapshotDict, hv]
    | int n => simp [getSnapshotDict, hv]
    | list xs => simp [getSnapshotDict, hv]

/-- C5 witness: concrete instances of the hypotheses of `claim_C5`. -/
theorem claim_C5_witness :
    getSnapshotDict (fun _ => none) [("snapshot", Value.str "oops")] = []
    ∧ getSnapshotDict (fun _ => some (Value.dict [("a", Value.int 1)]))
        [("snapshot", Value.str "x")] = [("a", Value.int 1)]
    ∧ getSnapshotDict (fun _ => none) [("snapshot", Value.dict [("b", Value.int 2)])]
        = [("b", Value.int 2)] :=
  ⟨claim_C5.2.2.1 (fun _ => none) [("snapshot", Value.str "oops")] "oops" rfl rfl,
   claim_C5.2.1 (fun _ => some (Value.dict [("a", Value.int 1)]))
     [("snapshot", Value.str "x")] "x" [("a", Value.int 1)] rfl rfl,
   claim_C5.1 (fun _ => none) [("snapshot", Value.dict [("b", Value.int 2)])]
     [("b", Value.int 2)] rfl⟩

/-- C4: `is_date_in_range` is true on null or empty input; otherwise
the text is parsed as an ISO date-time (with `Z` mapped to `+00:00`)
when it contains `T` and as a plain `YYYY-MM-DD` date otherwise; any
parse failure gives true; a parsed date gives true exactly when it
lies in the inclusive range. -/
theorem claim_C4 (fromiso strp : String → Option PyDate) (a b : PyDate) :
    (is_date_in_range fromiso strp none a b = true)
    ∧ (is_date_in_range fromiso strp (some "") a b = true)
    ∧ (∀ s : String, s ≠ "" → strContainsChar s 'T' = true →
        fromiso (pyReplaceZ s) = none →
        is_date_in_range fromiso strp (some s) a b = true)
    ∧ (∀ s : String, s ≠ "" → strContainsChar s 'T' = false → strp s = none →
        is_date_in_range fromiso strp (some s) a b = true)
    ∧ (∀ (s : String) (d : PyDate), s ≠ "" → strContainsChar s 'T' = true →
        fromiso (pyReplaceZ s) = some d →
        is_date_in_range fromiso strp (some s) a b
          = (PyDate.leb a d && PyDate.leb d b))
    ∧ (∀ (s : String) (d : PyDate), s ≠ "" → strContainsChar s 'T' = false →
        strp s = some d →
        is_date_in_range fromiso strp (some s) a b
          = (PyDate.leb a d && PyDate.leb d b)) := by
  refine ⟨rfl, rfl, ?_, ?_, ?_, ?_⟩
  · intro s hs hT hp
    simp [is_date_in_range, hs, hT, hp]
  · intro s hs hT hp
    simp [is_date_in_range, hs, hT, hp]
  · intro s d hs hT hp
    simp [is_date_in_range, hs, hT, hp]
  · intro s d hs hT hp
    simp [is_date_in_range, hs, hT, hp]

/-- C4 witness: the specification's concrete examples, via `claim_C4`
applied to the modelled `%Y-%m-%d` parser. -/
theorem claim_C4_witness :
    is_date_in_range (fun _ => none) strptimeYMD (some "2024-03-15")
      (PyDate.mk 2024 1 1) (PyDate.mk 2024 12 31) = true
    ∧ is_date_in_range (fun _ => none) strptimeYMD (some "2023-12-31")
      (PyDate.mk 2024 1 1) (PyDate.mk 2024 12 31) = false
    ∧ is_date_in_range (fun _ => none) strptimeYMD (some "not-a-date")
      (PyDate.mk 2024 1 1) (PyDate.mk 2024 1 31) = true
    ∧ is_date_in_range (fun _ => none) strptimeYMD none
      (PyDate.mk 2024 1 1) (PyDate.mk 2024 12 31) = true := by
  refine ⟨?_, ?_, ?_, ?_⟩
  · rw [(claim_C4 (fun _ => none) strptimeYMD (PyDate.mk 2024 1 1)
      (PyDate.mk 2024 12 31)).2.2.2.2.2 "2024-03-15" (PyDate.mk 2024 3 15)
      (by decide) (by decide) (by decide)]
    decide
  · rw [(claim_C4 (fun _ => none) strptimeYMD (PyDate.mk 2024 1 1)
      (PyDate.mk 2024 12 31)).2.2.2.2.2 "2023-12-31" (PyDate.mk 2023 12 31)
      (by decide) (by decide) (by decide)]
    decide
  · exact (claim_C4 (fun _ => none) strptimeYMD (PyDate.mk 2024 1 1)
      (PyDate.mk 2024 1 31)).2.2.2.1 "not-a-date" (by decide) (by decide) (by decide)
  · exact (claim_C4 (fun _ => none) strptimeYMD (PyDate.mk 2024 1 1)
      (PyDate.mk 2024 12 31)).1

/-- C7: for every input item the extracted record is a flat mapping
with exactly the 22 fixed canonical keys, in order, each always
present. -/
theorem claim_C7 (jl : String → Option Value) (item : Obj) :
    (extract_selected_fields jl item).map Prod.fst = canonicalKeys := rfl

/-- C9: the `categories` output joins the elements of a sequence-
valued `item.categories` with a comma-space separator, converting each
element to a string; a non-sequence value passes through unchanged. -/
theorem claim_C9 (jl : String → Option Value) (item : Obj) :
    (∀ xs : List Value, Obj.get item "categories" = Value.list xs →
       Obj.get (extract_selected_fields jl item) "categories" =
         Value.str (String.intercalate ", " (xs.map pyStr)))
    ∧ ((∀ xs : List Value, Obj.get item "categories" ≠ Value.list xs) →
       Obj.get (extract_selected_fields jl item) "categories" =
         Obj.get item "categories") := by
  constructor
  · intro xs h
    simp [extract_selected_fields, Obj.get, h]
  · intro h
    cases hv : Obj.get item "categories" with
    | list xs => exact absurd hv (h xs)
    | null => simp [extract_selected_fields, Obj.get, hv]
    | bool b => simp [extract_selected_fields, Obj.get, hv]
    | int n => simp [extract_selected_fields, Obj.get, hv]
    | str s => simp [extract_selected_fields, Obj.get, hv]
    | dict es => simp [extract_selected_fields, Obj.get, hv]

/-- C9 witness: the specification's example, via `claim_C9`:
`["Apparel", "Retail"]` joins to `"Apparel, Retail"`. -/
theorem claim_C9_witness :
    Obj.get (extract_selected_fields (fun _ => none)
        [("categories", Value.list [Value.str "Apparel", Value.str "Retail"])])
      "categories" = Value.str "Apparel, Retail" :=
  (claim_C9 (fun _ => none)
      [("categories", Value.list [Value.str "Apparel", Value.str "Retail"])]).1
    [Value.str "Apparel", Value.str "Retail"] rfl

/-- C8: the five snake/camel fields resolve to the snake_case key's
value when truthy and to the camelCase key's value otherwise, with
empty string, `None`, `0` and `False` all counting as absent;
`is_active` is passed through with no fallback. -/
theorem claim_C8 (jl : String → Option Value) (item : Obj) :
    fallsBackTo (extract_selected_fields jl item) "ad_archive_id" item "ad_archive_id" "adId"
    ∧ fallsBackTo (extract_selected_fields jl item) "page_id" item "page_id" "pageId"
    ∧ fallsBackTo (extract_selected_fields jl item) "page_name" item "page_name" "pageName"
    ∧ fallsBackTo (extract_selected_fields jl item) "start_date" item "start_date" "startDate"
    ∧ fallsBackTo (extract_selected_fields jl item) "end_date" item "end_date" "endDate"
    ∧ Obj.get (extract_selected_fields jl item) "is_active" = Obj.get item "is_active"
    ∧ pyTruthy (Value.str "") = false ∧ pyTruthy Value.null = false
    ∧ pyTruthy (Value.int 0) = false ∧ pyTruthy (Value.bool false) = false := by
  refine ⟨⟨?_, ?_⟩, ⟨?_, ?_⟩, ⟨?_, ?_⟩, ⟨?_, ?_⟩, ⟨?_, ?_⟩,
    by simp [extract_selected_fields, Obj.get], rfl, rfl, by decide, rfl⟩
  all_goals intro h
  all_goals simp [extract_selected_fields, Obj.get, pyOr, h]

/-- C8 witness: concrete fallback instances via `claim_C8`: an empty
snake_case value falls back to camelCase, a truthy one wins. -/
theorem claim_C8_witness :
    Obj.get (extract_selected_fields (fun _ => none)
        [("ad_archive_id", Value.str ""), ("adId", Value.str "77"),
         ("page_name", Value.str "Acme"), ("pageName", Value.str "Other")])
      "ad_archive_id" = Value.str "77"
    ∧ Obj.get (extract_selected_fields (fun _ => none)
        [("ad_archive_id", Value.str ""), ("adId", Value.str "77"),
         ("page_name", Value.str "Acme"), ("pageName", Value.str "Other")])
      "page_name" = Value.str "Acme" :=
  ⟨((claim_C8 (fun _ => none)
      [("ad_archive_id", Value.str ""), ("adId", Value.str "77"),
       ("page_name", Value.str "Acme"), ("pageName", Value.str "Other")]).1.2
      (by decide)).trans (by rfl),
   ((claim_C8 (fun _ => none)
      [("ad_archive_id", Value.str ""), ("adId", Value.str "77"),
       ("page_name", Value.str "Acme"), ("pageName", Value.str "Other")]).2.2.1.1
      (by decide)).trans (by rfl)⟩

/-- C2: the image field of the record equals the spec-side image
resolver (structural scan of `snapshot.images` with the five candidate
keys in priority order, then the five top-level fallback keys, then
null); including the specification's two concrete examples. -/
theorem claim_C2 :
    (∀ (jl : String → Option Value) (item : Obj),
       Obj.get (extract_selected_fields jl item) "original_image_url"
         = specImageResolver jl item)
    ∧ Obj.get (extract_selected_fields (fun _ => none)
        [("snapshot", Value.dict [("images", Value.list
           [Value.dict [("original_picture_url", Value.str "A")],
            Value.dict [("url", Value.str "B")]])])]) "original_image_url"
        = Value.str "A"
    ∧ Obj.get (extract_selected_fields (fun _ => none)
        [("thumbnailUrl", Value.str "T")]) "original_image_url"
        = Value.str "T" := by
  refine ⟨?_, by rfl, by rfl⟩
  intro jl item
  rcases scanMedia_null_or_truthy
      ["original_image_url", "original_picture_url", "original_picture", "url", "src"]
      (coerceSeq (Obj.get (getSnapshotDict jl item) "images")) with h | h
  · simp [extract_selected_fields, Obj.get, specImageResolver, getOriginalImageUrl, h,
      imageFallback, specFirstTruthy_eq, pyTruthy]
  · simp [extract_selected_fields, Obj.get, specImageResolver, getOriginalImageUrl, h]

/-- C3: the video field of the record equals the spec-side video
resolver: the structural scan over `snapshot.videos` first, and only
when it yields nothing the interleaved item-then-snapshot key scan;
with concrete examples, one showing the interleaving (a snapshot
`videoUrl` beats a top-level `video_url` listed later). -/
theorem claim_C3 :
    (∀ (jl : String → Option Value) (item : Obj),
       Obj.get (extract_selected_fields jl item) "video_url"
         = specVideoResolver jl item)
    ∧ Obj.get (extract_selected_fields (fun _ => none)
        [("snapshot", Value.dict [("videos", Value.list
           [Value.dict [("video_sd_url", Value.str "SD")],
            Value.dict [("video_hd_url", Value.str "HD")]])])]) "video_url"
        = Value.str "SD"
    ∧ Obj.get (extract_selected_fields (fun _ => none)
        [("video_url", Value.str "IV"),
         ("snapshot", Value.dict [("videoUrl", Value.str "SV")])]) "video_url"
        = Value.str "SV" := by
  refine ⟨?_, by rfl, by rfl⟩
  intro jl item
  rcases scanMedia_null_or_truthy
      ["video_hd_url", "video_sd_url", "video_preview_url", "url", "src"]
      (coerceSeq (Obj.get (getSnapshotDict jl item) "videos")) with h | h
  · simp [extract_selected_fields, Obj.get, specVideoResolver, h,
      videoFallback_eq_specInterleaved, pyTruthy]
  · simp [extract_selected_fields, Obj.get, specVideoResolver, h]

/-- C6 counterexample: the four snapshot fields are NOT uniformly
resolved by "treat as a sequence, take first element": for
`snapshot.images = [\x7b"foo": 1\x7d, \x7b"url": "X"\x7d]` the code
resolves `"X"` from the SECOND element, while the first element alone
yields nothing. -/
theorem claim_C6_counterexample :
    Obj.get (extract_selected_fields (fun _ => none)
        [("snapshot", Value.dict [("images", Value.list
           [Value.dict [("foo", Value.int 1)],
            Value.dict [("url", Value.str "X")]])])]) "original_image_url"
      = Value.str "X"
    ∧ scanMedia ["original_image_url", "original_picture_url", "original_picture", "url", "src"]
        ((coerceSeq (Value.list [Value.dict [("foo", Value.int 1)],
            Value.dict [("url", Value.str "X")]])).take 1)
      = Value.null :=
  ⟨rfl, rfl⟩

/-- C6 (amended): for each of `images`, `videos`, `cards` and
`page_categories`, a lone mapping value produces exactly the same
record as the one-element sequence holding it; for cards and
page-categories the first element of a sequence is used only when it
is a mapping, and any other shape yields no card / no page-category
(images and videos, by contrast, scan all elements of the coerced
sequence, not only the first). -/
theorem claim_C6 :
    (∀ (jl : String → Option Value) (item snapE M : Obj) (k : String),
       k ∈ ["images", "videos", "cards", "page_categories"] →
       extract_selected_fields jl
           (Obj.set item "snapshot" (Value.dict (Obj.set snapE k (Value.dict M))))
         = extract_selected_fields jl
           (Obj.set item "snapshot" (Value.dict (Obj.set snapE k (Value.list [Value.dict M])))))
    ∧ Obj.get (extract_selected_fields (fun _ => none)
        [("snapshot", Value.dict [("images", Value.dict [("url", Value.str "X")])])])
        "original_image_url" = Value.str "X"
    ∧ (∀ e : Obj, firstDict (Value.dict e) = some e)
    ∧ (∀ (e : Obj) (xs : List Value), firstDict (Value.list (Value.dict e :: xs)) = some e)
    ∧ (∀ (x : Value) (xs : List Value), (∀ e : Obj, x ≠ Value.dict e) →
        firstDict (Value.list (x :: xs)) = none)
    ∧ firstDict (Value.list []) = none
    ∧ (∀ v : Value, (∀ e : Obj, v ≠ Value.dict e) → (∀ xs : List Value, v ≠ Value.list xs) →
        firstDict v = none) := by
  refine ⟨?_, by rfl, fun e => rfl, fun e xs => rfl, ?_, rfl, ?_⟩
  · intro jl item snapE M k hk
    simp only [List.mem_cons, List.mem_singleton, List.not_mem_nil, or_false] at hk
    rcases hk with rfl | rfl | rfl | rfl
    all_goals
      simp [extract_selected_fields, getOriginalImageUrl, getSnapshotDict_set_dict,
        Obj.get_set_self, Obj.get_set_ne, coerceSeq, firstDict,
        imageFallback_set, videoFallback_set_item, videoFallback_set_snap]
  · intro x xs hx
    cases x with
    | dict e => exact absurd rfl (hx e)
    | null => rfl
    | bool b => rfl
    | int n => rfl
    | str s => rfl
    | list ys => rfl
  · intro v hd hl
    cases v with
    | dict e => exact absurd rfl (hd e)
    | list ys => exact absurd rfl (hl ys)
    | null => rfl
    | bool b => rfl
    | int n => rfl
    | str s => rfl

/-- C6 witness: the singleton-vs-list equivalence of `claim_C6` at the
specification's `images = single mapping with url X` example. -/
theorem claim_C6_witness :
    extract_selected_fields (fun _ => none)
        (Obj.set [] "snapshot" (Value.dict (Obj.set [] "images"
          (Value.dict [("url", Value.str "X")]))))
      = extract_selected_fields (fun _ => none)
        (Obj.set [] "snapshot" (Value.dict (Obj.set [] "images"
          (Value.list [Value.dict [("url", Value.str "X")]])))) :=
  claim_C6.1 (fun _ => none) [] [] [("url", Value.str "X")] "images" (by simp)

/-- C1: extraction is total, every input yields the full canonical
record (in particular an item with no snapshot key, whose snapshot
unwraps to the empty mapping), and a wrong-typed `snapshot.images`
value of any shape affects no record field other than
`original_image_url`. -/
theorem claim_C1 (jl : String → Option Value) (item : Obj) :
    ((extract_selected_fields jl item).map Prod.fst = canonicalKeys)
    ∧ (Obj.get item "snapshot" = Value.null → getSnapshotDict jl item = [])
    ∧ (∀ (snapE : Obj) (g1 g2 : Value) (k : String), k ≠ "original_image_url" →
        Obj.get (extract_selected_fields jl (Obj.set item "snapshot"
            (Value.dict (Obj.set snapE "images" g1)))) k
          = Obj.get (extract_selected_fields jl (Obj.set item "snapshot"
            (Value.dict (Obj.set snapE "images" g2)))) k) := by
  refine ⟨rfl, ?_, ?_⟩
  · intro h
    simp [getSnapshotDict, h]
  · intro snapE g1 g2 k hk
    apply Obj.get_agreeExcept "original_image_url" _ _ ?_ k hk
    simp [extract_selected_fields, agreeExcept, getOriginalImageUrl,
      getSnapshotDict_set_dict, Obj.get_set_self, Obj.get_set_ne,
      imageFallback_set, videoFallback_set_item, videoFallback_set_snap]

/-- C1 witness: concrete instances of the hypotheses of `claim_C1`: a
snapshot-less item unwraps to the empty mapping and still yields all
22 keys, and garbage `images` values leave `page_name` untouched. -/
theorem claim_C1_witness :
    getSnapshotDict (fun _ => none) [("x", Value.int 1)] = []
    ∧ ((extract_selected_fields (fun _ => none) [("x", Value.int 1)]).map Prod.fst
        = canonicalKeys)
    ∧ Obj.get (extract_selected_fields (fun _ => none) (Obj.set [("x", Value.int 1)]
          "snapshot" (Value.dict (Obj.set [] "images" (Value.int 7))))) "page_name"
      = Obj.get (extract_selected_fields (fun _ => none) (Obj.set [("x", Value.int 1)]
          "snapshot" (Value.dict (Obj.set [] "images" Value.null)))) "page_name" :=
  ⟨(claim_C1 (fun _ => none) [("x", Value.int 1)]).2.1 rfl,
   (claim_C1 (fun _ => none) [("x", Value.int 1)]).1,
   (claim_C1 (fun _ => none) [("x", Value.int 1)]).2.2 [] (Value.int 7) Value.null
     "page_name" (by decide)⟩
